import Mathlib

/-!
Shallow embedding of the expression-engine core (sixfold-origami's
expression_engine_rs): src/src/parser.rs (the ExprAST type, its evaluator
`exec`, its canonical printer `expr`, and the Pratt parser `Parser`),
src/src/ast.rs (the older duplicated parser `AST`), and src/src/error.rs.
The collaborating modules (tokenizer, operator registries, context, value)
are not part of the staged sources; their definitions below are modelled
from the specification and marked as such in their doc comments.

Rust Decimal values are modelled as an exact mantissa/scale pair, machine
strings as Lean String, and the in-place mutable Context as explicit state
passing: `exec` takes and returns the context. Recursive parser loops are
modelled with an explicit fuel argument; running out of fuel yields a
distinguished error that no real execution path produces, and every theorem
either quantifies over the fuel or evaluates at a generously sized fuel.
-/

namespace EE

/-- Modelled from the spec: numbers are "arbitrary-precision decimal"
(rust_decimal's Decimal in the source). A value is `m / 10 ^ s`. The
concrete inputs of every claim use scale 0 integers, where this model and
the 96-bit rust_decimal agree exactly. -/
structure Decimal where
  m : Int
  s : Nat
deriving DecidableEq, Repr

/-- Numeric addition: rescale both mantissas to the larger scale. -/
def dadd (a b : Decimal) : Decimal :=
  let t := max a.s b.s
  ⟨a.m * (10 : Int) ^ (t - a.s) + b.m * (10 : Int) ^ (t - b.s), t⟩

def dneg (a : Decimal) : Decimal := ⟨-a.m, a.s⟩

def dsub (a b : Decimal) : Decimal := dadd a (dneg b)

def dmul (a b : Decimal) : Decimal := ⟨a.m * b.m, a.s + b.s⟩

/-- Numeric equality of `a.m / 10^a.s` and `b.m / 10^b.s`. -/
def deq (a b : Decimal) : Bool := a.m * (10 : Int) ^ b.s == b.m * (10 : Int) ^ a.s

def dle (a b : Decimal) : Bool := a.m * (10 : Int) ^ b.s ≤ b.m * (10 : Int) ^ a.s

def dlt (a b : Decimal) : Bool := a.m * (10 : Int) ^ b.s < b.m * (10 : Int) ^ a.s

def dmin (a b : Decimal) : Decimal := if dle a b then a else b

def dmax (a b : Decimal) : Decimal := if dle a b then b else a

/-- Modelled from the spec: decimal division. The spec does not fix a
rounding rule; results exact at 28 fractional digits (rust_decimal's
precision), truncated toward zero. No claim exercises division. -/
def ddiv (a b : Decimal) : Decimal :=
  ⟨(a.m * (10 : Int) ^ (b.s + 28)).tdiv (b.m * (10 : Int) ^ a.s), 28⟩

/-- Canonical text of a decimal, digits with at most one point, mirroring
Decimal::to_string for the values the tokenizer produces. -/
def decimal_to_string (d : Decimal) : String :=
  if d.s = 0 then toString d.m
  else
    let sign := if d.m < 0 then ("-") else ("")
    let ds := Nat.toDigits 10 d.m.natAbs
    let ds := List.replicate (d.s + 1 - ds.length) ('0') ++ ds
    let k := ds.length - d.s
    sign ++ ⟨ds.take k⟩ ++ (".") ++ ⟨ds.drop k⟩

/-- Error taxonomy of src/src/error.rs, extended with the four variants the
parser and evaluator in src/src/parser.rs construct (UnexpectedToken,
NoOpenDelim, NoCloseDelim, NotReferenceExpr); the staged error.rs predates
them but the spec's §7 table lists all of these kinds. Tokenizer positions
are diagnostic-only and not tracked by this model: tokenizer-raised errors
carry position 0 (the parser's own UnexpectedEOF(0) is hard-coded 0 in the
source). -/
inductive Error where
  | InvalidNumber (s : String)
  | UnexpectedEOF (pos : Nat)
  | UnterminatedString (pos : Nat)
  | NoLeftBrace (pos : Nat)
  | NoRightBrace (pos : Nat)
  | InvalidBool (pos : Nat)
  | NotSupportedChar (pos : Nat) (c : Char)
  | ReferenceNotExist (name : String)
  | FunctionNotExist (name : String)
  | NotSupportedOp (op : String)
  | BinaryOpNotRegistered (op : String)
  | UnaryOpNotRegistered (op : String)
  | ShouldBeNumber
  | ShouldBeBool
  | UnexpectedToken
  | NoOpenDelim
  | NoCloseDelim
  | NotReferenceExpr
deriving DecidableEq, Repr

/-- Runtime values (the Value enum of the value module, per the spec's data
model: Number, Bool, String, List, Map, None). -/
inductive Value where
  | Number (d : Decimal)
  | Bool (b : Bool)
  | String (s : String)
  | List (l : List Value)
  | Map (m : List (Value × Value))
  | None

mutual
/-- Structural equality of values with numeric comparison of decimals,
mirroring the derived PartialEq of the source's Value (rust_decimal
compares numerically). -/
def value_beq : Value → Value → Bool
  | .Number a, .Number b => deq a b
  | .Bool a, .Bool b => a == b
  | .String a, .String b => a == b
  | .List a, .List b => values_beq a b
  | .Map a, .Map b => value_pairs_beq a b
  | .None, .None => true
  | _, _ => false

def values_beq : List Value → List Value → Bool
  | [], [] => true
  | a :: as_, b :: bs => value_beq a b && values_beq as_ bs
  | _, _ => false

def value_pairs_beq : List (Value × Value) → List (Value × Value) → Bool
  | [], [] => true
  | (ak, av) :: as_, (bk, bv) :: bs =>
    value_beq ak bk && value_beq av bv && value_pairs_beq as_ bs
  | _, _ => false
end

def values_contains (l : List Value) (v : Value) : Bool :=
  match l with
  | [] => false
  | x :: xs => value_beq x v || values_contains xs v

/-- Binary operator category (operator module's BinOpType): Calc is pure,
Setter mutates a reference in the context. -/
inductive BinOpType where
  | CALC
  | SETTER
deriving DecidableEq, Repr

/-- Modelled from the spec: the Setter category symbols of §6. -/
def setter_ops : List String := ["=", "+=", "-=", "*=", "/=", "%=", "<<=", ">>="]

/-- Modelled from the spec: the precedence classes of §6, high→low, as
consulted from the binary-op registry; unknown operators yield -1 so that
op_rest terminates. -/
def bin_precidence (op : String) : Int :=
  if op ∈ setter_ops then 1
  else if op = ("||") ∨ op = ("or") then 2
  else if op = ("&&") ∨ op = ("and") then 3
  else if op = ("==") ∨ op = ("!=") then 4
  else if op ∈ ["<", "<=", ">", ">=", "in", "beginWith", "endWith"] then 5
  else if op = ("<<") ∨ op = (">>") then 6
  else if op = ("+") ∨ op = ("-") then 7
  else if op ∈ ["*", "/", "%"] then 8
  else -1

/-- Modelled from the spec: BinaryOpFuncManager::get_op_type — the registry
entry's category, BinaryOpNotRegistered for an unknown symbol. -/
def get_op_type (op : String) : Except Error BinOpType :=
  if op ∈ setter_ops then .ok .SETTER
  else if bin_precidence op ≠ -1 then .ok .CALC
  else .error (.BinaryOpNotRegistered op)

/-- Lift a numeric binary function to values. -/
def num2 (f : Decimal → Decimal → Decimal) : Value → Value → Except Error Value
  | .Number a, .Number b => .ok (.Number (f a b))
  | _, _ => .error .ShouldBeNumber

/-- Lift a numeric comparison to values. -/
def cmp2 (f : Decimal → Decimal → Bool) : Value → Value → Except Error Value
  | .Number a, .Number b => .ok (.Bool (f a b))
  | _, _ => .error .ShouldBeNumber

/-- Lift a boolean binary function to values. -/
def bool2 (f : Bool → Bool → Bool) : Value → Value → Except Error Value
  | .Bool a, .Bool b => .ok (.Bool (f a b))
  | _, _ => .error .ShouldBeBool

/-- Lift an integer binary function to scale-0 decimals (the shift and
remainder operators; the spec leaves fractional operands unspecified, they
are rejected as ShouldBeNumber). -/
def int2 (f : Int → Int → Int) : Value → Value → Except Error Value
  | .Number a, .Number b =>
    if a.s = 0 ∧ b.s = 0 then .ok (.Number ⟨f a.m b.m, 0⟩) else .error .ShouldBeNumber
  | _, _ => .error .ShouldBeNumber

def div2 : Value → Value → Except Error Value
  | .Number a, .Number b =>
    if b.m = 0 then .error .ShouldBeNumber else .ok (.Number (ddiv a b))
  | _, _ => .error .ShouldBeNumber

def and_func : Value → Value → Except Error Value := bool2 (fun a b => a && b)

def or_func : Value → Value → Except Error Value := bool2 (fun a b => a || b)

def in_func : Value → Value → Except Error Value := fun a b =>
  match b with
  | .List l => .ok (.Bool (values_contains l a))
  | _ => .error (.NotSupportedOp ("in"))

/-- Does the character list `a` start with `pat`? -/
def chars_start_with : List Char → List Char → Bool
  | _, [] => true
  | [], _ :: _ => false
  | a :: as_, p :: ps => a == p && chars_start_with as_ ps

def begin_with_func : Value → Value → Except Error Value
  | .String a, .String b => .ok (.Bool (chars_start_with a.data b.data))
  | _, _ => .error (.NotSupportedOp ("beginWith"))

def end_with_func : Value → Value → Except Error Value
  | .String a, .String b => .ok (.Bool (chars_start_with a.data.reverse b.data.reverse))
  | _, _ => .error (.NotSupportedOp ("endWith"))

/-- Modelled from the spec: BinaryOpFuncManager::get — the registered
function of a binary operator (§4.3, §6). A setter symbol maps to its base
function: "=" takes the rhs, "+=" adds, and so on. -/
def binary_op_func (op : String) : Except Error (Value → Value → Except Error Value) :=
  if op = ("=") then .ok (fun _ b => .ok b)
  else if op = ("+") ∨ op = ("+=") then .ok (num2 dadd)
  else if op = ("-") ∨ op = ("-=") then .ok (num2 dsub)
  else if op = ("*") ∨ op = ("*=") then .ok (num2 dmul)
  else if op = ("/") ∨ op = ("/=") then .ok div2
  else if op = ("%") ∨ op = ("%=") then .ok (int2 Int.tmod)
  else if op = ("<<") ∨ op = ("<<=") then .ok (int2 (fun a b => a * (2 : Int) ^ b.toNat))
  else if op = (">>") ∨ op = (">>=") then .ok (int2 (fun a b => a / (2 : Int) ^ b.toNat))
  else if op = ("==") then .ok (fun a b => .ok (.Bool (value_beq a b)))
  else if op = ("!=") then .ok (fun a b => .ok (.Bool (!value_beq a b)))
  else if op = ("<") then .ok (cmp2 dlt)
  else if op = ("<=") then .ok (cmp2 dle)
  else if op = (">") then .ok (cmp2 (fun a b => dlt b a))
  else if op = (">=") then .ok (cmp2 (fun a b => dle b a))
  else if op = ("&&") ∨ op = ("and") then .ok and_func
  else if op = ("||") ∨ op = ("or") then .ok or_func
  else if op = ("in") then .ok in_func
  else if op = ("beginWith") then .ok begin_with_func
  else if op = ("endWith") then .ok end_with_func
  else .error (.BinaryOpNotRegistered op)

/-- Modelled from the spec: UnaryOpFuncManager::get — `!` and `not` negate a
Bool, prefix `-` negates a Number; unknown symbols are
UnaryOpNotRegistered. -/
def unary_op_func (op : String) : Except Error (Value → Except Error Value) :=
  if op = ("!") ∨ op = ("not") then
    .ok (fun v => match v with
      | .Bool b => .ok (.Bool (!b))
      | _ => .error .ShouldBeBool)
  else if op = ("-") then
    .ok (fun v => match v with
      | .Number d => .ok (.Number (dneg d))
      | _ => .error .ShouldBeNumber)
  else .error (.UnaryOpNotRegistered op)

def values_as_decimals : List Value → Except Error (List Decimal)
  | [] => .ok []
  | .Number d :: rest =>
    match values_as_decimals rest with
    | .error e => .error e
    | .ok ds => .ok (d :: ds)
  | _ :: _ => .error .ShouldBeNumber

def fold_decimals (f : Decimal → Decimal → Decimal) (vs : List Value) : Except Error Value :=
  match values_as_decimals vs with
  | .error e => .error e
  | .ok [] => .error .ShouldBeNumber
  | .ok (d :: ds) => .ok (.Number (ds.foldl f d))

/-- Modelled from the spec: InnerFunctionManager::get — the pre-registered
built-ins min, max, sum, mul over numeric arguments; a missing name fails
with FunctionNotExist. -/
def inner_function (name : String) : Except Error (List Value → Except Error Value) :=
  if name = ("min") then .ok (fold_decimals dmin)
  else if name = ("max") then .ok (fold_decimals dmax)
  else if name = ("sum") then .ok (fold_decimals dadd)
  else if name = ("mul") then .ok (fold_decimals dmul)
  else .error (.FunctionNotExist name)

/-- Modelled from the spec: the Context — a mapping from variable name to
Value plus a mapping from function name to a caller-supplied function. The
sole mutable state of evaluation; modelled as a persistent record that
`exec` threads through. -/
structure Context where
  vars : List (String × Value)
  funcs : List (String × (List Value → Except Error Value))

/-- Context::new — the fresh, empty context. -/
def Context.new : Context := ⟨[], []⟩

def assoc_set (l : List (String × Value)) (name : String) (v : Value) :
    List (String × Value) :=
  match l with
  | [] => [(name, v)]
  | (k, w) :: rest => if k = name then (k, v) :: rest else (k, w) :: assoc_set rest name v

/-- Modelled from the spec: Context::value — the bound value of a name, or
ReferenceNotExist when the name is unbound (§4.3, §8 "Reference error"). -/
def Context.value (ctx : Context) (name : String) : Except Error Value :=
  match ctx.vars.lookup name with
  | some v => .ok v
  | none => .error (.ReferenceNotExist name)

/-- Context::set_variable — bind (or rebind) a variable. -/
def Context.set_variable (ctx : Context) (name : String) (v : Value) : Context :=
  ⟨assoc_set ctx.vars name v, ctx.funcs⟩

/-- Context::get_func — a user-registered function, if any. -/
def Context.get_func (ctx : Context) (name : String) :
    Option (List Value → Except Error Value) :=
  ctx.funcs.lookup name

/-- Delimiter kinds (token module's DelimTokenType, per the spec's data
model). -/
inductive DelimTokenType where
  | OpenParen
  | CloseParen
  | OpenBracket
  | CloseBracket
  | OpenBrace
  | CloseBrace
  | Comma
  | Colon
  | Semicolon
  | QuestionMark
deriving DecidableEq, Repr

/-- Tokens (token module's Token, per the spec's data model). Source
positions, carried for diagnostics only, are not modelled. -/
inductive Token where
  | Number (d : Decimal)
  | Bool (b : Bool)
  | String (s : String)
  | Reference (s : String)
  | Function (s : String)
  | Operator (s : String)
  | Delim (t : DelimTokenType)
  | EOF
deriving DecidableEq, Repr

def open_brace_char : Char := Char.ofNat 123

def close_brace_char : Char := Char.ofNat 125

def single_quote_char : Char := Char.ofNat 39

def double_quote_char : Char := Char.ofNat 34

def delim_string : DelimTokenType → String
  | .OpenParen => "("
  | .CloseParen => ")"
  | .OpenBracket => "["
  | .CloseBracket => "]"
  | .OpenBrace => String.mk [open_brace_char]
  | .CloseBrace => String.mk [close_brace_char]
  | .Comma => ","
  | .Colon => ":"
  | .Semicolon => ";"
  | .QuestionMark => "?"

/-- Token::string — the symbol view used by expect and by the parser when it
takes the current operator. -/
def token_string : Token → String
  | .Number d => decimal_to_string d
  | .Bool b => if b then ("true") else ("false")
  | .String s => s
  | .Reference s => s
  | .Function s => s
  | .Operator s => s
  | .Delim t => delim_string t
  | .EOF => ""

def is_eof : Token → Bool
  | .EOF => true
  | _ => false

def is_semicolon : Token → Bool
  | .Delim .Semicolon => true
  | _ => false

def is_question_mark : Token → Bool
  | .Delim .QuestionMark => true
  | _ => false

def is_close_paren : Token → Bool
  | .Delim .CloseParen => true
  | _ => false

def is_close_bracket : Token → Bool
  | .Delim .CloseBracket => true
  | _ => false

def is_close_brace : Token → Bool
  | .Delim .CloseBrace => true
  | _ => false

/-- Modelled from the spec: is_op_token — an operator symbol or the ternary
question mark (parse_op dispatches on the question mark before consulting
precedence, so the predicate must cover it). -/
def is_op_token : Token → Bool
  | .Operator _ => true
  | .Delim .QuestionMark => true
  | _ => false

/-- Modelled from the spec: is_binop_token — an operator registered in the
binary-op registry (the unary-only symbols are not). -/
def is_binop_token : Token → Bool
  | .Operator op => bin_precidence op ≠ -1
  | _ => false

/-! ## Tokenizer

Modelled from the spec (§4.1): the tokenizer module is not among the staged
sources. Whitespace separates tokens; numbers are digit runs with at most
one point; strings are quoted by either quote character with no escapes;
identifiers resolve to Bool / word-operator / Function / Reference, the
last two by lookahead to an opening parenthesis; symbol operators take the
longest match among the registered operators; single characters `()[]{},:;?`
are delimiters. The whole input is tokenized up front: the source
tokenizer is lazy, but its token stream over any one input is the same. -/

def is_white_char (c : Char) : Bool := c == ' ' || c == '\t' || c == '\n'

def is_digit_char (c : Char) : Bool := '0' ≤ c && c ≤ '9'

def is_alpha_char (c : Char) : Bool :=
  ('a' ≤ c && c ≤ 'z') || ('A' ≤ c && c ≤ 'Z')

def is_ident_start (c : Char) : Bool := is_alpha_char c || c == '_'

def is_ident_cont (c : Char) : Bool := is_ident_start c || is_digit_char c

def digits_to_nat (ds : List Char) : Nat :=
  ds.foldl (fun acc c => acc * 10 + (c.toNat - 48)) 0

/-- Scan a number: digits and at most one point, `InvalidNumber` otherwise. -/
def scan_number (cs : List Char) : Except Error (Token × List Char) :=
  let body := cs.takeWhile (fun c => is_digit_char c || c == '.')
  let rest := cs.dropWhile (fun c => is_digit_char c || c == '.')
  let dots := (body.filter (fun c => c == '.')).length
  if dots > 1 then .error (.InvalidNumber (String.mk body))
  else
    let ip := body.takeWhile (fun c => c != '.')
    let fp := (body.dropWhile (fun c => c != '.')).drop 1
    if dots = 1 ∧ fp = [] then .error (.InvalidNumber (String.mk body))
    else .ok (.Number ⟨(digits_to_nat (ip ++ fp) : Int), fp.length⟩, rest)

/-- Scan a string literal after its opening quote `q`; UnterminatedString if
the input ends before the matching quote. -/
def scan_string (q : Char) (cs : List Char) : Except Error (Token × List Char) :=
  let body := cs.takeWhile (fun c => c != q)
  match cs.dropWhile (fun c => c != q) with
  | [] => .error (.UnterminatedString 0)
  | _ :: rest => .ok (.String (String.mk body), rest)

/-- The word operators recognised case-insensitively, keyed by their
lowercase form, valued by the registry symbol. -/
def word_op (lower : String) : Option String :=
  if lower = ("and") then some ("and")
  else if lower = ("or") then some ("or")
  else if lower = ("not") then some ("not")
  else if lower = ("in") then some ("in")
  else if lower = ("beginwith") then some ("beginWith")
  else if lower = ("endwith") then some ("endWith")
  else none

/-- ASCII lowercase of one character (the word operators are pure ASCII). -/
def ascii_to_lower (c : Char) : Char :=
  if 'A' ≤ c && c ≤ 'Z' then Char.ofNat (c.toNat + 32) else c

/-- Scan an identifier and classify it: reserved booleans, word operators,
then lookahead to the next non-whitespace character — an opening
parenthesis makes it a Function, anything else a Reference. -/
def scan_ident (cs : List Char) : Token × List Char :=
  let id := cs.takeWhile is_ident_cont
  let rest := cs.dropWhile is_ident_cont
  let name := String.mk id
  if name = ("true") ∨ name = ("True") then (.Bool true, rest)
  else if name = ("false") ∨ name = ("False") then (.Bool false, rest)
  else
    match word_op (String.mk (id.map ascii_to_lower)) with
    | some op => (.Operator op, rest)
    | none =>
      match (rest.dropWhile is_white_char).head? with
      | some c => if c == '(' then (.Function name, rest) else (.Reference name, rest)
      | none => (.Reference name, rest)

/-- The symbol operators, longest first, so that the first match is the
longest match. -/
def op_symbols : List String :=
  ["<<=", ">>=", "==", "!=", ">=", "<=", "<<", ">>", "&&", "||",
   "+=", "-=", "*=", "/=", "%=", "=", "!", "<", ">", "+", "-", "*", "/", "%"]

def find_op (cs : List Char) (pats : List String) : Option (String × List Char) :=
  match pats with
  | [] => none
  | p :: ps =>
    if chars_start_with cs p.data then some (p, cs.drop p.length)
    else find_op cs ps

def delim_of_char (c : Char) : Option DelimTokenType :=
  if c == '(' then some .OpenParen
  else if c == ')' then some .CloseParen
  else if c == '[' then some .OpenBracket
  else if c == ']' then some .CloseBracket
  else if c == open_brace_char then some .OpenBrace
  else if c == close_brace_char then some .CloseBrace
  else if c == ',' then some .Comma
  else if c == ':' then some .Colon
  else if c == ';' then some .Semicolon
  else if c == '?' then some .QuestionMark
  else none

/-- One step of the tokenizer: skip whitespace, then produce the next token
and the remaining characters. -/
def next_token (cs0 : List Char) : Except Error (Token × List Char) :=
  let cs := cs0.dropWhile is_white_char
  match cs with
  | [] => .ok (.EOF, [])
  | c :: rest =>
    if is_digit_char c then scan_number cs
    else if c == single_quote_char ∨ c == double_quote_char then scan_string c rest
    else if is_ident_start c then .ok (scan_ident cs)
    else
      match delim_of_char c with
      | some d => .ok (.Delim d, rest)
      | none =>
        match find_op cs op_symbols with
        | some (op, r) => .ok (.Operator op, r)
        | none => .error (.NotSupportedChar 0 c)

def out_of_fuel_str : String := "out of fuel"

def tokenize_loop : Nat → List Char → Except Error (List Token)
  | 0, _ => .error (.NotSupportedOp out_of_fuel_str)
  | f + 1, cs =>
    match next_token cs with
    | .error e => .error e
    | .ok (.EOF, _) => .ok []
    | .ok (t, rest) =>
      match tokenize_loop f rest with
      | .error e => .error e
      | .ok ts => .ok (t :: ts)

/-- Tokenize a whole input. Every token consumes at least one character, so
length + 1 steps always suffice. -/
def tokenize (input : String) : Except Error (List Token) :=
  tokenize_loop (input.length + 1) input.data

/-! ## The expression tree (src/src/parser.rs lines 12-43; src/src/ast.rs
declares the identical pair of types) -/

/-- Literal (parser.rs lines 12-17). -/
inductive Literal where
  | Number (d : Decimal)
  | Bool (b : Bool)
  | String (s : String)
deriving DecidableEq, Repr

/-- ExprAST (parser.rs lines 31-43). -/
inductive ExprAST where
  | Literal (l : Literal)
  | Unary (op : String) (rhs : ExprAST)
  | Binary (op : String) (lhs rhs : ExprAST)
  | Ternary (condition lhs rhs : ExprAST)
  | Reference (name : String)
  | Function (name : String) (params : List ExprAST)
  | List (params : List ExprAST)
  | Map (m : List (ExprAST × ExprAST))
  | Chain (exprs : List ExprAST)
  | None

/-- get_reference_name (parser.rs lines 342-347): the name under a Reference
node, NotReferenceExpr otherwise. -/
def get_reference_name : ExprAST → Except Error String
  | .Reference name => .ok name
  | _ => .error .NotReferenceExpr

/-- exec_literal (parser.rs lines 120-126). -/
def exec_literal : Literal → Value
  | .Bool b => .Bool b
  | .Number d => .Number d
  | .String s => .String s

/-! ## The evaluator (parser.rs lines 104-216; ast.rs lines 102-214 are the
same code)

The Rust `exec(&self, ctx: &mut Context)` mutates the context in place and
returns `Result<Value>`; here it returns the value paired with the updated
context. The helper `exec_params` is the argument-list loop shared by
exec_function and exec_list, `exec_map_pairs` the pair loop of exec_map and
`exec_chain` the statement loop of exec_chain. Error propagation follows
the source's `?` order exactly (in exec_binary's Setter arm: lhs value, rhs
value, reference name, registry lookup, op function). -/

mutual
def exec : ExprAST → Context → Except Error (Value × Context)
  | .Literal l, ctx => .ok (exec_literal l, ctx)
  | .Reference name, ctx =>
    match ctx.value name with
    | .error e => .error e
    | .ok v => .ok (v, ctx)
  | .Function name exprs, ctx =>
    match exec_params exprs ctx with
    | .error e => .error e
    | .ok (params, ctx1) =>
      match ctx1.get_func name with
      | some f =>
        match f params with
        | .error e => .error e
        | .ok v => .ok (v, ctx1)
      | none =>
        match inner_function name with
        | .error e => .error e
        | .ok f =>
          match f params with
          | .error e => .error e
          | .ok v => .ok (v, ctx1)
  | .Unary op rhs, ctx =>
    match unary_op_func op with
    | .error e => .error e
    | .ok f =>
      match exec rhs ctx with
      | .error e => .error e
      | .ok (v, ctx1) =>
        match f v with
        | .error e => .error e
        | .ok w => .ok (w, ctx1)
  | .Binary op lhs rhs, ctx =>
    match get_op_type op with
    | .error e => .error e
    | .ok .CALC =>
      match binary_op_func op with
      | .error e => .error e
      | .ok f =>
        match exec lhs ctx with
        | .error e => .error e
        | .ok (a, ctx1) =>
          match exec rhs ctx1 with
          | .error e => .error e
          | .ok (b, ctx2) =>
            match f a b with
            | .error e => .error e
            | .ok v => .ok (v, ctx2)
    | .ok .SETTER =>
      match exec lhs ctx with
      | .error e => .error e
      | .ok (a, ctx1) =>
        match exec rhs ctx1 with
        | .error e => .error e
        | .ok (b, ctx2) =>
          match get_reference_name lhs with
          | .error e => .error e
          | .ok name =>
            match binary_op_func op with
            | .error e => .error e
            | .ok f =>
              match f a b with
              | .error e => .error e
              | .ok v => .ok (Value.None, ctx2.set_variable name v)
  | .Ternary condition lhs rhs, ctx =>
    match exec condition ctx with
    | .error e => .error e
    | .ok (v, ctx1) =>
      match v with
      | .Bool b => if b then exec lhs ctx1 else exec rhs ctx1
      | _ => .error .ShouldBeBool
  | .List params, ctx =>
    match exec_params params ctx with
    | .error e => .error e
    | .ok (vs, ctx1) => .ok (.List vs, ctx1)
  | .Map m, ctx =>
    match exec_map_pairs m ctx with
    | .error e => .error e
    | .ok (vs, ctx1) => .ok (.Map vs, ctx1)
  | .Chain exprs, ctx => exec_chain exprs Value.None ctx
  | .None, ctx => .ok (Value.None, ctx)

def exec_params : List ExprAST → Context → Except Error (List Value × Context)
  | [], ctx => .ok ([], ctx)
  | e :: es, ctx =>
    match exec e ctx with
    | .error err => .error err
    | .ok (v, ctx1) =>
      match exec_params es ctx1 with
      | .error err => .error err
      | .ok (vs, ctx2) => .ok (v :: vs, ctx2)

def exec_map_pairs : List (ExprAST × ExprAST) → Context →
    Except Error (List (Value × Value) × Context)
  | [], ctx => .ok ([], ctx)
  | (k, v) :: rest, ctx =>
    match exec k ctx with
    | .error err => .error err
    | .ok (kv, ctx1) =>
      match exec v ctx1 with
      | .error err => .error err
      | .ok (vv, ctx2) =>
        match exec_map_pairs rest ctx2 with
        | .error err => .error err
        | .ok (vs, ctx3) => .ok ((kv, vv) :: vs, ctx3)

def exec_chain : List ExprAST → Value → Context → Except Error (Value × Context)
  | [], ans, ctx => .ok (ans, ctx)
  | e :: es, _, ctx =>
    match exec e ctx with
    | .error err => .error err
    | .ok (v, ctx1) => exec_chain es v ctx1
end

/-! ## The canonical printer (parser.rs lines 218-340) -/

/-- literal_expr (parser.rs lines 233-246). -/
def literal_expr : Literal → String
  | .Number d => decimal_to_string d
  | .Bool b => if b then ("true") else ("false")
  | .String s => String.mk [double_quote_char] ++ s ++ String.mk [double_quote_char]

/-- get_precidence (parser.rs lines 335-340): whether the node is a Binary,
and that operator's precedence. -/
def get_precidence : ExprAST → Bool × Int
  | .Binary op _ _ => (true, bin_precidence op)
  | _ => (false, 0)

def join_sep (sep : String) : List String → String
  | [] => ""
  | [x] => x
  | x :: xs => x ++ sep ++ join_sep sep xs

mutual
/-- expr (parser.rs lines 218-231): the canonical textual rendering. -/
def ExprAST.expr : ExprAST → String
  | .Literal v => literal_expr v
  | .Reference name => name
  | .Function name exprs => name ++ ("(") ++ join_sep (",") (expr_strings exprs) ++ (")")
  | .Unary op rhs => op ++ (" ") ++ ExprAST.expr rhs
  | .Binary op lhs rhs =>
    let left :=
      let (is, precidence) := get_precidence lhs
      if is ∧ precidence < bin_precidence op then
        ("(") ++ ExprAST.expr lhs ++ (")")
      else ExprAST.expr lhs
    let right :=
      let (is, precidence) := get_precidence rhs
      if is ∧ precidence < bin_precidence op then
        ("(") ++ ExprAST.expr rhs ++ (")")
      else ExprAST.expr rhs
    left ++ (" ") ++ op ++ (" ") ++ right
  | .Ternary condition lhs rhs =>
    ExprAST.expr condition ++ (" ? ") ++ ExprAST.expr lhs ++ (" : ") ++ ExprAST.expr rhs
  | .List params => ("[") ++ join_sep (",") (expr_strings params) ++ ("]")
  | .Map m =>
    String.mk [open_brace_char] ++ join_sep (",") (expr_pair_strings m)
      ++ String.mk [close_brace_char]
  | .Chain exprs => join_sep (";") (expr_strings exprs)
  | .None => ""

def expr_strings : List ExprAST → List String
  | [] => []
  | e :: es => ExprAST.expr e :: expr_strings es

def expr_pair_strings : List (ExprAST × ExprAST) → List String
  | [] => []
  | (k, v) :: rest => (ExprAST.expr k ++ (":") ++ ExprAST.expr v) :: expr_pair_strings rest
end

/-! ## The parser (src/src/parser.rs lines 350-556)

The parser state is the remaining token stream: the current token is the
head (EOF when the list is exhausted, as the source tokenizer keeps
returning EOF), `advance` is Tokenizer::next. `expect` is the tokenizer's
expect: the current token's string must equal the wanted symbol, which is
then consumed; the spec does not pin the error it raises (no claim observes
it), UnexpectedToken is used. Every parse function takes fuel and hands
`f` to its callees from `f + 1`; exhaustion yields the out-of-fuel error,
which no run with fuel larger than the call depth produces. -/

abbrev PState := List Token

def cur : PState → Token
  | [] => .EOF
  | t :: _ => t

def advance : PState → PState
  | [] => []
  | _ :: r => r

def expect (s : PState) (sym : String) : Except Error PState :=
  if token_string (cur s) = sym then .ok (advance s) else .error .UnexpectedToken

/-- get_token_precidence (parser.rs lines 466-471). -/
def get_token_precidence (s : PState) : Int :=
  match cur s with
  | .Operator op => bin_precidence op
  | _ => -1

def out_of_fuel {α : Type} : Except Error α := .error (.NotSupportedOp out_of_fuel_str)

mutual
/-- parse_token (parser.rs lines 387-412). -/
def parse_token : Nat → PState → Except Error (ExprAST × PState)
  | 0, _ => out_of_fuel
  | f + 1, s =>
    match cur s with
    | .Number d => .ok (.Literal (.Number d), advance s)
    | .Bool b => .ok (.Literal (.Bool b), advance s)
    | .String v => .ok (.Literal (.String v), advance s)
    | .Reference v => .ok (.Reference v, advance s)
    | .Function name => parse_function f name s
    | .Operator op => parse_unary f op s
    | .Delim ty => parse_delim f ty s
    | .EOF => .error (.UnexpectedEOF 0)

/-- parse_chain_expression body (parser.rs lines 414-424): gather
expressions until EOF, consuming a separating semicolon after each. -/
def parse_chain_loop : Nat → List ExprAST → PState → Except Error (List ExprAST × PState)
  | 0, _, _ => out_of_fuel
  | f + 1, ans, s =>
    if is_eof (cur s) then .ok (ans, s)
    else
      match parse_expression f s with
      | .error e => .error e
      | .ok (e, s1) =>
        let s2 := if is_semicolon (cur s1) then advance s1 else s1
        parse_chain_loop f (ans ++ [e]) s2

/-- parse_chain_expression (parser.rs lines 414-429): a list of length one
is unwrapped to its sole element. -/
def parse_chain_expression : Nat → PState → Except Error (ExprAST × PState)
  | 0, _ => out_of_fuel
  | f + 1, s =>
    match parse_chain_loop f [] s with
    | .error e => .error e
    | .ok (ans, s1) =>
      match ans with
      | [e] => .ok (e, s1)
      | l => .ok (.Chain l, s1)

/-- parse_expression (parser.rs lines 431-434). -/
def parse_expression : Nat → PState → Except Error (ExprAST × PState)
  | 0, _ => out_of_fuel
  | f + 1, s =>
    match parse_primary f s with
    | .error e => .error e
    | .ok (lhs, s1) => parse_op f 0 lhs s1

/-- parse_primary (parser.rs lines 436-438). -/
def parse_primary : Nat → PState → Except Error (ExprAST × PState)
  | 0, _ => out_of_fuel
  | f + 1, s => parse_token f s

/-- parse_op (parser.rs lines 440-464): Pratt precedence climbing. The
source's loop is the tail call with the accumulated Binary as the new lhs. -/
def parse_op : Nat → Int → ExprAST → PState → Except Error (ExprAST × PState)
  | 0, _, _, _ => out_of_fuel
  | f + 1, exec_prec, lhs, s =>
    if !is_op_token (cur s) then .ok (lhs, s)
    else if is_question_mark (cur s) then
      match parse_expression f (advance s) with
      | .error e => .error e
      | .ok (a, s1) =>
        match expect s1 (":") with
        | .error e => .error e
        | .ok s2 =>
          match parse_expression f s2 with
          | .error e => .error e
          | .ok (b, s3) => .ok (.Ternary lhs a b, s3)
    else
      let tok_prec := get_token_precidence s
      if tok_prec < exec_prec then .ok (lhs, s)
      else
        let op := token_string (cur s)
        match parse_primary f (advance s) with
        | .error e => .error e
        | .ok (rhs, s1) =>
          let extended :=
            if is_binop_token (cur s1) ∧ tok_prec < get_token_precidence s1 then
              parse_op f (tok_prec + 1) rhs s1
            else .ok (rhs, s1)
          match extended with
          | .error e => .error e
          | .ok (rhs2, s2) => parse_op f exec_prec (.Binary op lhs rhs2) s2

/-- parse_delim (parser.rs lines 473-481). -/
def parse_delim : Nat → DelimTokenType → PState → Except Error (ExprAST × PState)
  | 0, _, _ => out_of_fuel
  | f + 1, ty, s =>
    match ty with
    | .OpenParen => parse_open_paren f s
    | .OpenBracket => parse_open_bracket f s
    | .OpenBrace => parse_open_brace f s
    | _ => .error .NoOpenDelim

/-- parse_open_paren (parser.rs lines 483-491). -/
def parse_open_paren : Nat → PState → Except Error (ExprAST × PState)
  | 0, _ => out_of_fuel
  | f + 1, s =>
    match parse_expression f (advance s) with
    | .error e => .error e
    | .ok (e, s1) =>
      if !is_close_paren (cur s1) then .error .NoCloseDelim
      else .ok (e, advance s1)

/-- parse_open_bracket loop (parser.rs lines 496-504): stop at EOF or a
closing bracket; after each element expect a comma unless the closing
bracket is next (so a trailing comma is accepted). -/
def parse_bracket_loop : Nat → List ExprAST → PState →
    Except Error (List ExprAST × PState)
  | 0, _, _ => out_of_fuel
  | f + 1, exprs, s =>
    if is_eof (cur s) ∨ is_close_bracket (cur s) then .ok (exprs, s)
    else
      match parse_expression f s with
      | .error e => .error e
      | .ok (e, s1) =>
        if is_close_bracket (cur s1) then parse_bracket_loop f (exprs ++ [e]) s1
        else
          match expect s1 (",") with
          | .error er => .error er
          | .ok s2 => parse_bracket_loop f (exprs ++ [e]) s2

/-- parse_open_bracket (parser.rs lines 493-507). -/
def parse_open_bracket : Nat → PState → Except Error (ExprAST × PState)
  | 0, _ => out_of_fuel
  | f + 1, s =>
    match parse_bracket_loop f [] (advance s) with
    | .error e => .error e
    | .ok (exprs, s1) =>
      match expect s1 ("]") with
      | .error e => .error e
      | .ok s2 => .ok (.List exprs, s2)

/-- parse_open_brace loop (parser.rs lines 512-523). -/
def parse_brace_loop : Nat → List (ExprAST × ExprAST) → PState →
    Except Error (List (ExprAST × ExprAST) × PState)
  | 0, _, _ => out_of_fuel
  | f + 1, m, s =>
    if is_eof (cur s) ∨ is_close_brace (cur s) then .ok (m, s)
    else
      match parse_expression f s with
      | .error e => .error e
      | .ok (k, s1) =>
        match expect s1 (":") with
        | .error e => .error e
        | .ok s2 =>
          match parse_expression f s2 with
          | .error e => .error e
          | .ok (v, s3) =>
            if is_close_brace (cur s3) then parse_brace_loop f (m ++ [(k, v)]) s3
            else
              match expect s3 (",") with
              | .error er => .error er
              | .ok s4 => parse_brace_loop f (m ++ [(k, v)]) s4

/-- parse_open_brace (parser.rs lines 509-526). -/
def parse_open_brace : Nat → PState → Except Error (ExprAST × PState)
  | 0, _ => out_of_fuel
  | f + 1, s =>
    match parse_brace_loop f [] (advance s) with
    | .error e => .error e
    | .ok (m, s1) =>
      match expect s1 (String.mk [close_brace_char]) with
      | .error e => .error e
      | .ok s2 => .ok (.Map m, s2)

/-- parse_unary (parser.rs lines 528-531). -/
def parse_unary : Nat → String → PState → Except Error (ExprAST × PState)
  | 0, _, _ => out_of_fuel
  | f + 1, op, s =>
    match parse_primary f (advance s) with
    | .error e => .error e
    | .ok (e, s1) => .ok (.Unary op e, s1)

/-- parse_function argument loop (parser.rs lines 542-550): an argument,
then either the closing parenthesis ends the call or a comma must follow
(so a trailing comma is not accepted: the next loop round parses the
closing parenthesis as a primary and fails). -/
def parse_function_args : Nat → List ExprAST → PState →
    Except Error (List ExprAST × PState)
  | 0, _, _ => out_of_fuel
  | f + 1, ans, s =>
    match parse_expression f s with
    | .error e => .error e
    | .ok (e, s1) =>
      if is_close_paren (cur s1) then .ok (ans ++ [e], advance s1)
      else
        match expect s1 (",") with
        | .error er => .error er
        | .ok s2 => parse_function_args f (ans ++ [e]) s2

/-- parse_function (parser.rs lines 533-555). -/
def parse_function : Nat → String → PState → Except Error (ExprAST × PState)
  | 0, _, _ => out_of_fuel
  | f + 1, name, s =>
    match expect (advance s) ("(") with
    | .error e => .error e
    | .ok s1 =>
      if is_close_paren (cur s1) then .ok (.Function name [], advance s1)
      else
        match parse_function_args f [] s1 with
        | .error e => .error e
        | .ok (ans, s2) => .ok (.Function name ans, s2)
end

/-! ## The duplicated parser of src/src/ast.rs (lines 350-555)

The AST struct's parser is the same recursive-descent code with three
behavioural differences: parse_token maps EOF to the None node instead of
an error (ast.rs line 405, without consuming); parse_open_bracket has no
trailing-comma tolerance (lines 509-525: after an element either the
closing bracket ends the list or a comma must be followed by another
element); parse_open_brace returns the empty Map without consuming the
closing brace (lines 489-494). Functions shared verbatim are still
duplicated here because the mutual recursion goes through the changed
ones. -/

mutual
/-- AST::parse_token (ast.rs lines 383-408). -/
def ast_parse_token : Nat → PState → Except Error (ExprAST × PState)
  | 0, _ => out_of_fuel
  | f + 1, s =>
    match cur s with
    | .Number d => .ok (.Literal (.Number d), advance s)
    | .Bool b => .ok (.Literal (.Bool b), advance s)
    | .String v => .ok (.Literal (.String v), advance s)
    | .Reference v => .ok (.Reference v, advance s)
    | .Function name => ast_parse_function f name s
    | .Operator op => ast_parse_unary f op s
    | .Delim ty => ast_parse_delim f ty s
    | .EOF => .ok (.None, s)

/-- AST::parse_chain_expression body (ast.rs lines 412-420). -/
def ast_parse_chain_loop : Nat → List ExprAST → PState →
    Except Error (List ExprAST × PState)
  | 0, _, _ => out_of_fuel
  | f + 1, ans, s =>
    if is_eof (cur s) then .ok (ans, s)
    else
      match ast_parse_expression f s with
      | .error e => .error e
      | .ok (e, s1) =>
        let s2 := if is_semicolon (cur s1) then advance s1 else s1
        ast_parse_chain_loop f (ans ++ [e]) s2

/-- AST::parse_chain_expression (ast.rs lines 410-425). -/
def ast_parse_chain_expression : Nat → PState → Except Error (ExprAST × PState)
  | 0, _ => out_of_fuel
  | f + 1, s =>
    match ast_parse_chain_loop f [] s with
    | .error e => .error e
    | .ok (ans, s1) =>
      match ans with
      | [e] => .ok (e, s1)
      | l => .ok (.Chain l, s1)

/-- AST::parse_expression (ast.rs lines 427-430). -/
def ast_parse_expression : Nat → PState → Except Error (ExprAST × PState)
  | 0, _ => out_of_fuel
  | f + 1, s =>
    match ast_parse_primary f s with
    | .error e => .error e
    | .ok (lhs, s1) => ast_parse_op f 0 lhs s1

/-- AST::parse_primary (ast.rs lines 432-434). -/
def ast_parse_primary : Nat → PState → Except Error (ExprAST × PState)
  | 0, _ => out_of_fuel
  | f + 1, s => ast_parse_token f s

/-- AST::parse_op (ast.rs lines 436-460). -/
def ast_parse_op : Nat → Int → ExprAST → PState → Except Error (ExprAST × PState)
  | 0, _, _, _ => out_of_fuel
  | f + 1, exec_prec, lhs, s =>
    if !is_op_token (cur s) then .ok (lhs, s)
    else if is_question_mark (cur s) then
      match ast_parse_expression f (advance s) with
      | .error e => .error e
      | .ok (a, s1) =>
        match expect s1 (":") with
        | .error e => .error e
        | .ok s2 =>
          match ast_parse_expression f s2 with
          | .error e => .error e
          | .ok (b, s3) => .ok (.Ternary lhs a b, s3)
    else
      let tok_prec := get_token_precidence s
      if tok_prec < exec_prec then .ok (lhs, s)
      else
        let op := token_string (cur s)
        match ast_parse_primary f (advance s) with
        | .error e => .error e
        | .ok (rhs, s1) =>
          let extended :=
            if is_binop_token (cur s1) ∧ tok_prec < get_token_precidence s1 then
              ast_parse_op f (tok_prec + 1) rhs s1
            else .ok (rhs, s1)
          match extended with
          | .error e => .error e
          | .ok (rhs2, s2) => ast_parse_op f exec_prec (.Binary op lhs rhs2) s2

/-- AST::parse_delim (ast.rs lines 469-477). -/
def ast_parse_delim : Nat → DelimTokenType → PState → Except Error (ExprAST × PState)
  | 0, _, _ => out_of_fuel
  | f + 1, ty, s =>
    match ty with
    | .OpenParen => ast_parse_open_paren f s
    | .OpenBracket => ast_parse_open_bracket f s
    | .OpenBrace => ast_parse_open_brace f s
    | _ => .error .NoOpenDelim

/-- AST::parse_open_paren (ast.rs lines 479-487). -/
def ast_parse_open_paren : Nat → PState → Except Error (ExprAST × PState)
  | 0, _ => out_of_fuel
  | f + 1, s =>
    match ast_parse_expression f (advance s) with
    | .error e => .error e
    | .ok (e, s1) =>
      if !is_close_paren (cur s1) then .error .NoCloseDelim
      else .ok (e, advance s1)

/-- AST::parse_open_bracket loop (ast.rs lines 516-523): after an element
either the closing bracket ends the list (and is consumed) or a comma is
expected and another element must follow. -/
def ast_parse_bracket_loop : Nat → List ExprAST → PState →
    Except Error (List ExprAST × PState)
  | 0, _, _ => out_of_fuel
  | f + 1, exprs, s =>
    match ast_parse_expression f s with
    | .error e => .error e
    | .ok (e, s1) =>
      if is_close_bracket (cur s1) then .ok (exprs ++ [e], advance s1)
      else
        match expect s1 (",") with
        | .error er => .error er
        | .ok s2 => ast_parse_bracket_loop f (exprs ++ [e]) s2

/-- AST::parse_open_bracket (ast.rs lines 509-525). -/
def ast_parse_open_bracket : Nat → PState → Except Error (ExprAST × PState)
  | 0, _ => out_of_fuel
  | f + 1, s =>
    let s1 := advance s
    if is_close_bracket (cur s1) then .ok (.List [], advance s1)
    else
      match ast_parse_bracket_loop f [] s1 with
      | .error e => .error e
      | .ok (exprs, s2) => .ok (.List exprs, s2)

/-- AST::parse_open_brace loop (ast.rs lines 495-505). -/
def ast_parse_brace_loop : Nat → List (ExprAST × ExprAST) → PState →
    Except Error (List (ExprAST × ExprAST) × PState)
  | 0, _, _ => out_of_fuel
  | f + 1, m, s =>
    match ast_parse_expression f s with
    | .error e => .error e
    | .ok (k, s1) =>
      match expect s1 (":") with
      | .error e => .error e
      | .ok s2 =>
        match ast_parse_expression f s2 with
        | .error e => .error e
        | .ok (v, s3) =>
          if is_close_brace (cur s3) then .ok (m ++ [(k, v)], advance s3)
          else
            match expect s3 (",") with
            | .error er => .error er
            | .ok s4 => ast_parse_brace_loop f (m ++ [(k, v)]) s4

/-- AST::parse_open_brace (ast.rs lines 489-507): the empty Map is returned
with its closing brace left unconsumed, faithfully to the source. -/
def ast_parse_open_brace : Nat → PState → Except Error (ExprAST × PState)
  | 0, _ => out_of_fuel
  | f + 1, s =>
    let s1 := advance s
    if is_close_brace (cur s1) then .ok (.Map [], s1)
    else
      match ast_parse_brace_loop f [] s1 with
      | .error e => .error e
      | .ok (m, s2) => .ok (.Map m, s2)

/-- AST::parse_unary (ast.rs lines 527-530). -/
def ast_parse_unary : Nat → String → PState → Except Error (ExprAST × PState)
  | 0, _, _ => out_of_fuel
  | f + 1, op, s =>
    match ast_parse_primary f (advance s) with
    | .error e => .error e
    | .ok (e, s1) => .ok (.Unary op e, s1)

/-- AST::parse_function argument loop (ast.rs lines 541-549). -/
def ast_parse_function_args : Nat → List ExprAST → PState →
    Except Error (List ExprAST × PState)
  | 0, _, _ => out_of_fuel
  | f + 1, ans, s =>
    match ast_parse_expression f s with
    | .error e => .error e
    | .ok (e, s1) =>
      if is_close_paren (cur s1) then .ok (ans ++ [e], advance s1)
      else
        match expect s1 (",") with
        | .error er => .error er
        | .ok s2 => ast_parse_function_args f (ans ++ [e]) s2

/-- AST::parse_function (ast.rs lines 532-553). -/
def ast_parse_function : Nat → String → PState → Except Error (ExprAST × PState)
  | 0, _, _ => out_of_fuel
  | f + 1, name, s =>
    match expect (advance s) ("(") with
    | .error e => .error e
    | .ok s1 =>
      if is_close_paren (cur s1) then .ok (.Function name [], advance s1)
      else
        match ast_parse_function_args f [] s1 with
        | .error e => .error e
        | .ok (ans, s2) => .ok (.Function name ans, s2)
end

/-! ## String-level wrappers

Parser::new / AST::new tokenize (the source reads tokens lazily; over one
input the stream is identical) and the parse entry points run with fuel
amply larger than any call depth the token list can drive. The Rust entry
points return only the tree; leftover tokens are ignored. -/

def parse_fuel (toks : List Token) : Nat := 16 * (toks.length + 1)

/-- Parser::new followed by Parser::parse_expression. -/
def parse_expression_str (input : String) : Except Error ExprAST :=
  match tokenize input with
  | .error e => .error e
  | .ok toks =>
    match parse_expression (parse_fuel toks) toks with
    | .error e => .error e
    | .ok (t, _) => .ok t

/-- Parser::new followed by Parser::parse_chain_expression. -/
def parse_chain_str (input : String) : Except Error ExprAST :=
  match tokenize input with
  | .error e => .error e
  | .ok toks =>
    match parse_chain_expression (parse_fuel toks) toks with
    | .error e => .error e
    | .ok (t, _) => .ok t

/-- AST::new followed by AST::parse_expression. -/
def ast_parse_expression_str (input : String) : Except Error ExprAST :=
  match tokenize input with
  | .error e => .error e
  | .ok toks =>
    match ast_parse_expression (parse_fuel toks) toks with
    | .error e => .error e
    | .ok (t, _) => .ok t

/-- Parse a chain and execute it against a context: the embedding's
exec(input) of the spec's scenarios. -/
def run_str (input : String) (ctx : Context) : Except Error (Value × Context) :=
  match parse_chain_str input with
  | .error e => .error e
  | .ok t => exec t ctx

/-- Whether a node is a Chain, the shape the chain-unwrap invariant
forbids at length one. -/
def is_chain : ExprAST → Bool
  | .Chain _ => true
  | _ => false

/-! ## Theorems -/

/-- C1: the chain "a=1; a+=2; a" parses as expected, but executing it
against a fresh empty Context does not succeed with 3: exec_binary
(parser.rs line 166) evaluates the setter's lhs as an expression before
writing, and Context::value on the unbound name "a" fails, so the whole
chain fails with ReferenceNotExist("a") — against the claim (and the
spec's own setter-semantics property). -/
theorem c1_setter_chain_fails_on_fresh_context :
    parse_chain_str ("a=1; a+=2; a") =
      .ok (.Chain [
        .Binary ("=") (.Reference ("a")) (.Literal (.Number ⟨1, 0⟩)),
        .Binary ("+=") (.Reference ("a")) (.Literal (.Number ⟨2, 0⟩)),
        .Reference ("a")]) ∧
    run_str ("a=1; a+=2; a") Context.new = .error (.ReferenceNotExist ("a")) :=
  ⟨rfl, rfl⟩

/-- C2, counterexample: "a-(b-c)" parses successfully; its canonical text
is "a - b - c" (an equal-precedence Binary rhs is not parenthesised),
which reparses left-associated; on a context binding a, b, c to 1 the
original tree executes to 1 and the reparsed tree to -1, so the round-trip
does not preserve the exec result. -/
theorem c2_round_trip_counterexample :
    parse_expression_str ("a-(b-c)") =
      .ok (.Binary ("-") (.Reference ("a"))
        (.Binary ("-") (.Reference ("b")) (.Reference ("c")))) ∧
    ExprAST.expr (.Binary ("-") (.Reference ("a"))
        (.Binary ("-") (.Reference ("b")) (.Reference ("c")))) = ("a - b - c") ∧
    parse_expression_str ("a - b - c") =
      .ok (.Binary ("-") (.Binary ("-") (.Reference ("a")) (.Reference ("b")))
        (.Reference ("c"))) ∧
    exec (.Binary ("-") (.Reference ("a"))
        (.Binary ("-") (.Reference ("b")) (.Reference ("c"))))
        ⟨[(("a"), .Number ⟨1, 0⟩), (("b"), .Number ⟨1, 0⟩), (("c"), .Number ⟨1, 0⟩)], []⟩
      = .ok (.Number ⟨1, 0⟩,
        ⟨[(("a"), .Number ⟨1, 0⟩), (("b"), .Number ⟨1, 0⟩), (("c"), .Number ⟨1, 0⟩)], []⟩) ∧
    exec (.Binary ("-") (.Binary ("-") (.Reference ("a")) (.Reference ("b")))
        (.Reference ("c")))
        ⟨[(("a"), .Number ⟨1, 0⟩), (("b"), .Number ⟨1, 0⟩), (("c"), .Number ⟨1, 0⟩)], []⟩
      = .ok (.Number ⟨-1, 0⟩,
        ⟨[(("a"), .Number ⟨1, 0⟩), (("b"), .Number ⟨1, 0⟩), (("c"), .Number ⟨1, 0⟩)], []⟩) ∧
    Value.Number ⟨1, 0⟩ ≠ Value.Number ⟨-1, 0⟩ :=
  ⟨rfl, rfl, rfl, rfl, rfl, by simp⟩

/-- C2, amended: for each of the spec's exemplar inputs — "a+b*c",
"(a+b)*c" and "2<=3 ? 'yes' : 'no'" — the parse succeeds and parsing the
ast's canonical text yields the identical ast back, so on these inputs the
exec result is preserved on every context that does not mutate between
runs. (No stronger class is claimed: the counterexample shows the
round-trip fails in general.) -/
theorem c2_round_trip_amended :
    (parse_expression_str ("a+b*c") =
        .ok (.Binary ("+") (.Reference ("a"))
          (.Binary ("*") (.Reference ("b")) (.Reference ("c")))) ∧
      parse_expression_str (ExprAST.expr (.Binary ("+") (.Reference ("a"))
          (.Binary ("*") (.Reference ("b")) (.Reference ("c"))))) =
        .ok (.Binary ("+") (.Reference ("a"))
          (.Binary ("*") (.Reference ("b")) (.Reference ("c"))))) ∧
    (parse_expression_str ("(a+b)*c") =
        .ok (.Binary ("*") (.Binary ("+") (.Reference ("a")) (.Reference ("b")))
          (.Reference ("c"))) ∧
      parse_expression_str (ExprAST.expr (.Binary ("*")
          (.Binary ("+") (.Reference ("a")) (.Reference ("b"))) (.Reference ("c")))) =
        .ok (.Binary ("*") (.Binary ("+") (.Reference ("a")) (.Reference ("b")))
          (.Reference ("c")))) ∧
    (parse_expression_str ("2<=3 ? 'yes' : 'no'") =
        .ok (.Ternary
          (.Binary ("<=") (.Literal (.Number ⟨2, 0⟩)) (.Literal (.Number ⟨3, 0⟩)))
          (.Literal (.String ("yes"))) (.Literal (.String ("no")))) ∧
      parse_expression_str (ExprAST.expr (.Ternary
          (.Binary ("<=") (.Literal (.Number ⟨2, 0⟩)) (.Literal (.Number ⟨3, 0⟩)))
          (.Literal (.String ("yes"))) (.Literal (.String ("no"))))) =
        .ok (.Ternary
          (.Binary ("<=") (.Literal (.Number ⟨2, 0⟩)) (.Literal (.Number ⟨3, 0⟩)))
          (.Literal (.String ("yes"))) (.Literal (.String ("no"))))) :=
  ⟨⟨rfl, rfl⟩, ⟨rfl, rfl⟩, ⟨rfl, rfl⟩⟩

/-- C3, counterexample: Parser::parse_chain_expression on empty input does
not return an error — its gather loop breaks at once on EOF and the empty
statement list is returned as Chain([]) — so it does not return "the same
error" as parse_expression (which does fail with UnexpectedEOF(0)). -/
theorem c3_empty_input_counterexample :
    parse_chain_str ("") = .ok (.Chain []) ∧
    parse_chain_str (" ") = .ok (.Chain []) ∧
    parse_expression_str ("") = .error (.UnexpectedEOF 0) :=
  ⟨rfl, rfl, rfl⟩

/-- C3, amended: Parser::parse_expression on empty input fails with
UnexpectedEOF(0); Parser::parse_chain_expression on empty or
pure-whitespace input instead succeeds with the empty Chain, which
executes to None. -/
theorem c3_empty_input_amended :
    parse_expression_str ("") = .error (.UnexpectedEOF 0) ∧
    parse_chain_str ("") = .ok (.Chain []) ∧
    parse_chain_str ("   ") = .ok (.Chain []) ∧
    run_str ("") Context.new = .ok (Value.None, Context.new) :=
  ⟨rfl, rfl, rfl, rfl⟩

/-- C6: precedence sanity — "a+b*c" parses with the multiplication nested
on the right, "(a+b)*c" with the parenthesised sum on the left, and an
equal-precedence tie such as "a-b+c" associates to the left. -/
theorem c6_precedence_sanity :
    parse_expression_str ("a+b*c") =
      .ok (.Binary ("+") (.Reference ("a"))
        (.Binary ("*") (.Reference ("b")) (.Reference ("c")))) ∧
    parse_expression_str ("(a+b)*c") =
      .ok (.Binary ("*") (.Binary ("+") (.Reference ("a")) (.Reference ("b")))
        (.Reference ("c"))) ∧
    parse_expression_str ("a-b+c") =
      .ok (.Binary ("+") (.Binary ("-") (.Reference ("a")) (.Reference ("b")))
        (.Reference ("c"))) :=
  ⟨rfl, rfl, rfl⟩

/-- C9, counterexample: the two duplicated implementations are not
equivalent as parsers — on empty input AST::parse_expression (ast.rs)
succeeds with the None node while Parser::parse_expression (parser.rs)
fails with UnexpectedEOF(0). -/
theorem c9_duplicate_parsers_counterexample :
    ast_parse_expression_str ("") = .ok .None ∧
    parse_expression_str ("") = .error (.UnexpectedEOF 0) :=
  ⟨rfl, rfl⟩

/-- C9, amended: the two implementations diverge exactly where their code
differs — ast.rs maps EOF at a primary to the None node where parser.rs
errors, and ast.rs rejects a trailing comma in a list literal where
parser.rs accepts it — while on ordinary inputs such as "a+b*c" both
succeed with equal trees. -/
theorem c9_duplicate_parsers_divergence :
    (ast_parse_expression_str ("2+") =
        .ok (.Binary ("+") (.Literal (.Number ⟨2, 0⟩)) .None) ∧
      parse_expression_str ("2+") = .error (.UnexpectedEOF 0)) ∧
    (parse_expression_str ("[1,]") = .ok (.List [.Literal (.Number ⟨1, 0⟩)]) ∧
      ast_parse_expression_str ("[1,]") = .error .NoOpenDelim) ∧
    (parse_expression_str ("a+b*c") =
        .ok (.Binary ("+") (.Reference ("a"))
          (.Binary ("*") (.Reference ("b")) (.Reference ("c")))) ∧
      ast_parse_expression_str ("a+b*c") =
        .ok (.Binary ("+") (.Reference ("a"))
          (.Binary ("*") (.Reference ("b")) (.Reference ("c"))))) :=
  ⟨⟨rfl, rfl⟩, ⟨rfl, rfl⟩, ⟨rfl, rfl⟩⟩

/-- C10: trailing commas are accepted in collection literals — "[1,]"
parses to List([1]) and "{1:2,}" to Map([(1,2)]) — but not in function
calls: "f(1,)" is rejected (the argument loop demands an expression after
the comma and finds the closing parenthesis, NoOpenDelim). -/
theorem c10_trailing_commas :
    parse_expression_str ("[1,]") = .ok (.List [.Literal (.Number ⟨1, 0⟩)]) ∧
    parse_expression_str ("\x7b1:2,\x7d") =
      .ok (.Map [(.Literal (.Number ⟨1, 0⟩), .Literal (.Number ⟨2, 0⟩))]) ∧
    parse_expression_str ("f(1,)") = .error .NoOpenDelim :=
  ⟨rfl, rfl, rfl⟩

/-- C4: no short-circuit for the logical operators — for every context and
sub-expressions l and r, Binary("&&", l, r) and Binary("||", l, r)
evaluate l and then r (in that order, threading the context) before the op
function combines the two values: when r fails after l succeeded the whole
evaluation fails with r's error whatever l's value was, and when both
succeed the result is the op function applied to the two values. -/
theorem c4_no_short_circuit (ctx ctx1 : Context) (l r : ExprAST) (v : Value)
    (h1 : exec l ctx = .ok (v, ctx1)) :
    (∀ e, exec r ctx1 = .error e →
      exec (.Binary ("&&") l r) ctx = .error e ∧
      exec (.Binary ("||") l r) ctx = .error e) ∧
    (∀ w ctx2, exec r ctx1 = .ok (w, ctx2) →
      exec (.Binary ("&&") l r) ctx =
        (match and_func v w with
          | .error e => .error e
          | .ok u => .ok (u, ctx2)) ∧
      exec (.Binary ("||") l r) ctx =
        (match or_func v w with
          | .error e => .error e
          | .ok u => .ok (u, ctx2))) := by
  constructor
  · intro e h2
    constructor <;> (simp only [exec, h1, h2]; rfl)
  · intro w ctx2 h2
    constructor <;> (simp only [exec, h1, h2]; rfl)

/-- C4 witness: with l a Bool literal whose value alone would already
determine the boolean result (false for &&, true for ||) and r an unbound
reference, the evaluation still fails with r's error. -/
theorem c4_no_short_circuit_witness :
    exec (.Binary ("&&") (.Literal (.Bool false)) (.Reference ("nope"))) Context.new
      = .error (.ReferenceNotExist ("nope")) ∧
    exec (.Binary ("||") (.Literal (.Bool true)) (.Reference ("nope"))) Context.new
      = .error (.ReferenceNotExist ("nope")) :=
  ⟨((c4_no_short_circuit Context.new Context.new (.Literal (.Bool false))
      (.Reference ("nope")) (.Bool false) rfl).1 _ rfl).1,
   ((c4_no_short_circuit Context.new Context.new (.Literal (.Bool true))
      (.Reference ("nope")) (.Bool true) rfl).1 _ rfl).2⟩

/-- C5: ternary laziness — once the condition evaluates to Bool b, the
ternary's result is exactly the evaluation of the chosen branch in the
updated context (the unchosen branch never runs and cannot influence the
result); concretely, exec("true ? 1 : nope") on a fresh context with
"nope" unbound succeeds with the Value 1. -/
theorem c5_ternary_laziness :
    (∀ (ctx ctx1 : Context) (c l r : ExprAST) (b : Bool),
      exec c ctx = .ok (.Bool b, ctx1) →
      exec (.Ternary c l r) ctx = exec (if b then l else r) ctx1) ∧
    run_str ("true ? 1 : nope") Context.new = .ok (.Number ⟨1, 0⟩, Context.new) := by
  constructor
  · intro ctx ctx1 c l r b h
    simp only [exec, h]
    cases b <;> simp
  · rfl

/-- C5 witness: the laziness theorem applied at the parsed tree of
"true ? 1 : nope" on the fresh context, discharging the condition
hypothesis at its concrete evaluation. -/
theorem c5_ternary_laziness_witness :
    exec (.Ternary (.Literal (.Bool true)) (.Literal (.Number ⟨1, 0⟩))
        (.Reference ("nope"))) Context.new
      = exec (if true then (ExprAST.Literal (.Number ⟨1, 0⟩)) else (.Reference ("nope")))
          Context.new :=
  c5_ternary_laziness.1 Context.new Context.new _ _ _ true rfl

/-- C8: a setter-category Binary with a non-Reference lhs is not rejected
by the parser — "1 = 2" parses successfully — and evaluating such a Binary
(once both sides evaluate) fails with the typed error NotReferenceExpr,
returned as a value. -/
theorem c8_setter_lhs_checked_at_eval :
    parse_expression_str ("1 = 2") =
      .ok (.Binary ("=") (.Literal (.Number ⟨1, 0⟩)) (.Literal (.Number ⟨2, 0⟩))) ∧
    (∀ (op : String) (lhs rhs : ExprAST) (ctx c1 c2 : Context) (a b : Value),
      get_op_type op = .ok .SETTER →
      get_reference_name lhs = .error .NotReferenceExpr →
      exec lhs ctx = .ok (a, c1) → exec rhs c1 = .ok (b, c2) →
      exec (.Binary op lhs rhs) ctx = .error .NotReferenceExpr) := by
  constructor
  · rfl
  · intro op lhs rhs ctx c1 c2 a b hty hname hl hr
    simp only [exec, hty, hname, hl, hr]

/-- C8 witness: the evaluation side of the theorem applied at the parsed
tree of "1 = 2" on the fresh context. -/
theorem c8_setter_lhs_witness :
    exec (.Binary ("=") (.Literal (.Number ⟨1, 0⟩)) (.Literal (.Number ⟨2, 0⟩)))
        Context.new = .error .NotReferenceExpr :=
  c8_setter_lhs_checked_at_eval.2 ("=") _ _ Context.new Context.new Context.new _ _
    rfl rfl rfl rfl


theorem parse_unary_not_chain (f : Nat) (op : String) (s : PState)
    (r : ExprAST × PState) (h : parse_unary f op s = .ok r) : is_chain r.1 = false := by
  cases f with
  | zero => simp [parse_unary, out_of_fuel] at h
  | succ f =>
    simp only [parse_unary] at h
    split at h
    · simp at h
    · injection h with h1
      rw [← h1]
      rfl

theorem parse_function_not_chain (f : Nat) (name : String) (s : PState)
    (r : ExprAST × PState) (h : parse_function f name s = .ok r) : is_chain r.1 = false := by
  cases f with
  | zero => simp [parse_function, out_of_fuel] at h
  | succ f =>
    simp only [parse_function] at h
    split at h
    · simp at h
    · split at h
      · injection h with h1; rw [← h1]; rfl
      · split at h
        · simp at h
        · injection h with h1; rw [← h1]; rfl

theorem parse_open_bracket_not_chain (f : Nat) (s : PState)
    (r : ExprAST × PState) (h : parse_open_bracket f s = .ok r) : is_chain r.1 = false := by
  cases f with
  | zero => simp [parse_open_bracket, out_of_fuel] at h
  | succ f =>
    simp only [parse_open_bracket] at h
    split at h
    · simp at h
    · split at h
      · simp at h
      · injection h with h1; rw [← h1]; rfl

theorem parse_open_brace_not_chain (f : Nat) (s : PState)
    (r : ExprAST × PState) (h : parse_open_brace f s = .ok r) : is_chain r.1 = false := by
  cases f with
  | zero => simp [parse_open_brace, out_of_fuel] at h
  | succ f =>
    simp only [parse_open_brace] at h
    split at h
    · simp at h
    · split at h
      · simp at h
      · injection h with h1; rw [← h1]; rfl

theorem parse_not_chain (f : Nat) :
    (∀ s r, parse_token f s = .ok r → is_chain r.1 = false) ∧
    (∀ s r, parse_expression f s = .ok r → is_chain r.1 = false) ∧
    (∀ s r, parse_primary f s = .ok r → is_chain r.1 = false) ∧
    (∀ p lhs s r, is_chain lhs = false → parse_op f p lhs s = .ok r →
      is_chain r.1 = false) ∧
    (∀ ty s r, parse_delim f ty s = .ok r → is_chain r.1 = false) ∧
    (∀ s r, parse_open_paren f s = .ok r → is_chain r.1 = false) := by
  induction f with
  | zero =>
    refine ⟨?_, ?_, ?_, ?_, ?_, ?_⟩ <;> intros <;>
      simp_all [parse_token, parse_expression, parse_primary, parse_op,
        parse_delim, parse_open_paren, out_of_fuel]
  | succ f ih =>
    obtain ⟨iht, ihe, ihp, iho, ihd, ihpar⟩ := ih
    refine ⟨?_, ?_, ?_, ?_, ?_, ?_⟩
    · intro s r h
      simp only [parse_token] at h
      split at h
      · injection h with h1; rw [← h1]; rfl
      · injection h with h1; rw [← h1]; rfl
      · injection h with h1; rw [← h1]; rfl
      · injection h with h1; rw [← h1]; rfl
      · exact parse_function_not_chain f _ _ _ h
      · exact parse_unary_not_chain f _ _ _ h
      · exact ihd _ _ _ h
      · simp at h
    · intro s r h
      simp only [parse_expression] at h
      split at h
      · simp at h
      · rename_i lhs_state heq
        exact iho _ _ _ _ (ihp _ _ heq) h
    · intro s r h
      simp only [parse_primary] at h
      exact iht _ _ h
    · intro p lhs s r hl h
      simp only [parse_op] at h
      split at h
      · injection h with h1; rw [← h1]; exact hl
      · split at h
        · split at h
          · simp at h
          · split at h
            · simp at h
            · split at h
              · simp at h
              · injection h with h1; rw [← h1]; rfl
        · split at h
          · injection h with h1; rw [← h1]; exact hl
          · split at h
            · simp at h
            · split at h
              · simp at h
              · refine iho _ _ _ _ ?_ h
                rfl
    · intro ty s r h
      simp only [parse_delim] at h
      split at h
      · exact ihpar _ _ h
      · exact parse_open_bracket_not_chain f _ _ h
      · exact parse_open_brace_not_chain f _ _ h
      · simp at h
    · intro s r h
      simp only [parse_open_paren] at h
      split at h
      · simp at h
      · rename_i heq
        split at h
        · simp at h
        · have he := ihe _ _ heq
          injection h with h1
          rw [← h1]
          exact he

theorem parse_chain_loop_elems (f : Nat) :
    ∀ acc s r, parse_chain_loop f acc s = .ok r →
      ∀ e ∈ r.1, e ∈ acc ∨ is_chain e = false := by
  induction f with
  | zero => intro acc s r h; simp [parse_chain_loop, out_of_fuel] at h
  | succ f ih =>
    intro acc s r h
    simp only [parse_chain_loop] at h
    split at h
    · injection h with h1
      rw [← h1]
      intro e he
      exact Or.inl he
    · split at h
      · simp at h
      · rename_i heq
        intro e he
        have hnc := (parse_not_chain f).2.1 _ _ heq
        rcases ih _ _ _ h e he with hmem | hch
        · rcases List.mem_append.mp hmem with hmem2 | hmem2
          · exact Or.inl hmem2
          · right
            rw [List.mem_singleton.mp hmem2]
            exact hnc
        · exact Or.inr hch

theorem parse_chain_not_chain_one (f : Nat) (s : PState) (r : ExprAST × PState)
    (h : parse_chain_expression f s = .ok r) :
    ∀ l, r.1 = .Chain l → l.length ≠ 1 := by
  cases f with
  | zero => simp [parse_chain_expression, out_of_fuel] at h
  | succ f =>
    simp only [parse_chain_expression] at h
    split at h
    · simp at h
    · rename_i heq
      split at h
      · rename_i e
        have hnc := parse_chain_loop_elems f _ _ _ heq e (by simp)
        simp at hnc
        injection h with h1
        rw [← h1]
        intro l hl
        simp at hl
        rw [hl] at hnc
        simp [is_chain] at hnc
      · rename_i hne
        injection h with h1
        rw [← h1]
        intro l hl hlen
        simp at hl
        rcases l with _ | ⟨a, rest⟩
        · simp at hlen
        · rcases rest with _ | ⟨b, rest2⟩
          · exact hne a hl
          · simp at hlen

/-- C7: chain unwrap invariant — whenever Parser::parse_chain_expression
succeeds, the returned AST is not a Chain of length 1 (the parser unwraps a
single-statement chain to the inner node, and parse_expression itself never
builds a Chain). -/
theorem c7_chain_unwrap (input : String) (t : ExprAST)
    (h : parse_chain_str input = .ok t) : ∀ l, t = .Chain l → l.length ≠ 1 := by
  simp only [parse_chain_str] at h
  split at h
  · simp at h
  · split at h
    · simp at h
    · rename_i heq
      injection h with h1
      rw [← h1]
      exact parse_chain_not_chain_one _ _ _ heq


/-- C7 witness: the single-statement input "x" parses to the bare Reference
node, which the theorem (applied at this concrete parse) shows is no Chain
of length 1. -/
theorem c7_chain_unwrap_witness :
    parse_chain_str ("x") = .ok (.Reference ("x")) ∧
    (∀ l, ExprAST.Reference ("x") = .Chain l → l.length ≠ 1) :=
  ⟨rfl, c7_chain_unwrap ("x") (.Reference ("x")) rfl⟩

end EE
